import Mathlib

/-!
Verification of the autonomous-job orchestration engine of the oneclaw-node
repository: plan generation, adaptive recovery, the polling/notification
loop, and result formatting, as implemented in
src/oneclaw-node/src/autonomous_jobs.rs and
src/oneclaw-node/src/autonomous_jobs_poller.rs.

Modelling conventions:
- serde_json::Value is modelled by the inductive Json below. JSON numbers
  are restricted to integers (the code only ever reads integer-valued
  fields; ratings read via as_f64 are modelled as integer-valued doubles).
- Indexing a serde_json::Value by a string key or array position returns
  Null when absent (Json.get / Json.idx), exactly as the Index impl on
  Value does. Indexing a serde_json::Map (obtained from as_object) panics
  when the key is absent; that lookup is modelled by mapGet?, with none
  standing for the panic.
- Network calls are modelled by passing the call outcome in as an
  (Except String Json) argument: .error e is a transport failure that the
  question-mark operator propagates, .ok body is the decoded response body.
- nanoid id generation is modelled by an id-supply argument.
- Channel.send is modelled as an infallible sink: each function returns
  the list of message texts it sent, in order.
-/

namespace Oneclaw

/-- Model of serde_json::Value, with numbers restricted to integers. -/
inductive Json where
  | null : Json
  | bool : Bool → Json
  | num : Int → Json
  | str : String → Json
  | arr : List Json → Json
  | obj : List (String × Json) → Json
deriving Repr, Inhabited

/-- Value indexing by key, as in serde_json: value["key"] is Null when the
value is not an object or the key is absent. -/
def Json.get (j : Json) (k : String) : Json :=
  match j with
  | .obj kvs =>
    match kvs.find? (fun p => p.1 == k) with
    | some p => p.2
    | none => .null
  | _ => .null

/-- Value indexing by array position, as in serde_json: value[i] is Null
when the value is not an array or the position is out of range. -/
def Json.idx (j : Json) (i : Nat) : Json :=
  match j with
  | .arr xs => xs.getD i .null
  | _ => .null

/-- Value.as_str. -/
def Json.asStr : Json → Option String
  | .str s => some s
  | _ => none

/-- Value.as_i64: the number when it fits in a signed 64-bit integer. -/
def Json.asI64 : Json → Option Int
  | .num n => if -(2 ^ 63) ≤ n ∧ n < 2 ^ 63 then some n else none
  | _ => none

/-- Value.as_f64, restricted to the integer-valued doubles of the model. -/
def Json.asF64 : Json → Option Int
  | .num n => some n
  | _ => none

/-- Value.as_array. -/
def Json.asArray : Json → Option (List Json)
  | .arr xs => some xs
  | _ => none

/-- Value.as_object, yielding the key-value list of the map. -/
def Json.asObject : Json → Option (List (String × Json))
  | .obj kvs => some kvs
  | _ => none

/-- Lookup in a serde_json::Map. The Index impl on Map panics when the key
is absent, so the caller treats none as a panic, not as Null. -/
def mapGet? (kvs : List (String × Json)) (k : String) : Option Json :=
  (kvs.find? (fun p => p.1 == k)).map (fun p => p.2)

/-- Rust cast from a wider integer to i32 (two-s complement truncation). -/
def toI32 (n : Int) : Int := (n + 2 ^ 31) % 2 ^ 32 - 2 ^ 31

/-- Rust cast from i32 to usize on a 64-bit target. -/
def toUsize (n : Int) : Nat := (n % 2 ^ 64).toNat

/-! String helpers mirroring the Rust standard library calls used by the
source: str::trim_start_matches and str::trim_end_matches strip the
pattern repeatedly, not just once. -/

/-- Whitespace recognized by the trimming model (the ASCII subset of the
Unicode whitespace Rust str::trim removes; the payloads at hand are ASCII). -/
def isWsChar (c : Char) : Bool := c = ' ' || c = '\n' || c = '\r' || c = '\t'

/-- str::trim over the character list: drop whitespace from both ends. -/
def rustTrim (s : List Char) : List Char :=
  ((s.dropWhile isWsChar).reverse.dropWhile isWsChar).reverse

/-- Fuel-driven repeated prefix strip; fuel bounds the number of strips. -/
def stripPrefixAll : Nat → List Char → List Char → List Char
  | 0, s, _ => s
  | fuel + 1, s, pat =>
    if pat ≠ [] ∧ pat.isPrefixOf s then stripPrefixAll fuel (s.drop pat.length) pat else s

/-- str::trim_start_matches with a string pattern. -/
def trimStartMatches (s pat : List Char) : List Char :=
  stripPrefixAll (s.length + 1) s pat

/-- str::trim_end_matches with a string pattern: repeatedly strip the
suffix, realized on the reversed list. -/
def trimEndMatches (s pat : List Char) : List Char :=
  (stripPrefixAll (s.length + 1) s.reverse pat.reverse).reverse

/-- The markdown-fence stripping pipeline applied to the model response
content in both generate_job_plan and generate_recovery_plan:
trim, strip leading fence markers, strip trailing fence marker, trim. -/
def stripFence (content : String) : String :=
  String.mk (rustTrim (trimEndMatches
    (trimStartMatches (trimStartMatches (rustTrim content.data) "```json".data) "```".data)
    "```".data))

/-! A JSON parser standing in for serde_json::from_str, restricted to
integer numerals (no fractions or exponents; the orchestration layer never
produces or reads non-integer numbers). -/

/-- JSON insignificant whitespace. -/
def isWs (c : Char) : Bool := c = ' ' || c = '\n' || c = '\r' || c = '\t'

/-- Drop leading JSON whitespace. -/
def skipWs : List Char → List Char
  | [] => []
  | c :: rest => if isWs c then skipWs rest else c :: rest

/-- Hexadecimal digit value, for unicode escapes. -/
def hexVal (c : Char) : Option Nat :=
  if '0' ≤ c ∧ c ≤ '9' then some (c.toNat - 48)
  else if 'a' ≤ c ∧ c ≤ 'f' then some (c.toNat - 87)
  else if 'A' ≤ c ∧ c ≤ 'F' then some (c.toNat - 55)
  else none

/-- Parse the body of a JSON string literal after the opening quote,
returning the decoded characters and the input after the closing quote. -/
def parseStringBody : List Char → Option (List Char × List Char)
  | [] => none
  | '"' :: rest => some ([], rest)
  | '\\' :: esc =>
    match esc with
    | [] => none
    | 'u' :: a :: b :: c :: d :: rest =>
      match hexVal a, hexVal b, hexVal c, hexVal d with
      | some ha, some hb, some hc, some hd =>
        (parseStringBody rest).map
          (fun p => (Char.ofNat (((ha * 16 + hb) * 16 + hc) * 16 + hd) :: p.1, p.2))
      | _, _, _, _ => none
    | e :: rest =>
      let dec : Option Char :=
        if e = '"' then some '"'
        else if e = '\\' then some '\\'
        else if e = '/' then some '/'
        else if e = 'n' then some '\n'
        else if e = 't' then some '\t'
        else if e = 'r' then some '\r'
        else if e = 'b' then some (Char.ofNat 8)
        else if e = 'f' then some (Char.ofNat 12)
        else none
      match dec with
      | some c => (parseStringBody rest).map (fun p => (c :: p.1, p.2))
      | none => none
  | c :: rest => (parseStringBody rest).map (fun p => (c :: p.1, p.2))

/-- Accumulate decimal digits into a natural number. -/
def digitsAcc (acc : Nat) : List Char → Nat × List Char
  | [] => (acc, [])
  | c :: rest =>
    if c.isDigit then digitsAcc (acc * 10 + (c.toNat - 48)) rest else (acc, c :: rest)

/-- Parse an integer JSON numeral. -/
def parseNum : List Char → Option (Int × List Char)
  | '-' :: c :: rest =>
    if c.isDigit then
      let p := digitsAcc (c.toNat - 48) rest
      some (-(p.1 : Int), p.2)
    else none
  | c :: rest =>
    if c.isDigit then
      let p := digitsAcc (c.toNat - 48) rest
      some ((p.1 : Int), p.2)
    else none
  | [] => none

mutual

/-- Parse one JSON value; fuel bounds the recursion depth. -/
def parseVal : Nat → List Char → Option (Json × List Char)
  | 0, _ => none
  | fuel + 1, cs =>
    match skipWs cs with
    | [] => none
    | 'n' :: 'u' :: 'l' :: 'l' :: rest => some (.null, rest)
    | 't' :: 'r' :: 'u' :: 'e' :: rest => some (.bool true, rest)
    | 'f' :: 'a' :: 'l' :: 's' :: 'e' :: rest => some (.bool false, rest)
    | '"' :: rest => (parseStringBody rest).map (fun p => (.str (String.mk p.1), p.2))
    | '[' :: rest =>
      (match skipWs rest with
       | ']' :: rest2 => some (.arr [], rest2)
       | _ => parseElems fuel rest [])
    | '{' :: rest =>
      (match skipWs rest with
       | '}' :: rest2 => some (.obj [], rest2)
       | _ => parseMembers fuel rest [])
    | c :: rest => (parseNum (c :: rest)).map (fun p => (.num p.1, p.2))

/-- Parse the elements of a non-empty JSON array after the opening bracket. -/
def parseElems : Nat → List Char → List Json → Option (Json × List Char)
  | 0, _, _ => none
  | fuel + 1, cs, acc =>
    match parseVal fuel cs with
    | none => none
    | some (v, rest) =>
      match skipWs rest with
      | ',' :: rest2 => parseElems fuel rest2 (acc ++ [v])
      | ']' :: rest2 => some (.arr (acc ++ [v]), rest2)
      | _ => none

/-- Parse the members of a non-empty JSON object after the opening brace. -/
def parseMembers : Nat → List Char → List (String × Json) → Option (Json × List Char)
  | 0, _, _ => none
  | fuel + 1, cs, acc =>
    match skipWs cs with
    | '"' :: rest =>
      (match parseStringBody rest with
       | none => none
       | some (key, rest2) =>
         match skipWs rest2 with
         | ':' :: rest3 =>
           (match parseVal fuel rest3 with
            | none => none
            | some (v, rest4) =>
              match skipWs rest4 with
              | ',' :: rest5 => parseMembers fuel rest5 (acc ++ [(String.mk key, v)])
              | '}' :: rest5 => some (.obj (acc ++ [(String.mk key, v)]), rest5)
              | _ => none)
         | _ => none)
    | _ => none

end

/-- serde_json::from_str: the whole input must be one JSON value followed
only by whitespace. -/
def from_str (s : String) : Option Json :=
  match parseVal (s.length + 1) s.data with
  | none => none
  | some (v, rest) => if skipWs rest = [] then some v else none

/-! Data model and plan generation, from autonomous_jobs.rs. -/

/-- JobStep from autonomous_jobs.rs; order is i32, params a raw Value. -/
structure JobStep where
  id : String
  order : Int
  action : String
  params : Json
  status : String
deriving Repr, Inhabited

/-- JobPlan from autonomous_jobs.rs. -/
structure JobPlan where
  description : String
  steps : List JobStep
deriving Repr, Inhabited

/-- Outcome of a Rust function returning anyhow::Result, with a separate
constructor for a process panic (unwinding), which is not a Result error. -/
inductive RResult (α : Type) where
  | ok (val : α)
  | err (msg : String)
  | panicked (msg : String)
deriving Repr, Inhabited

/-- Extraction of the model reply text from the decoded response body:
response_json["content"][0]["text"].as_str(). -/
def extractContent (body : Json) : Option String :=
  (((body.get "content").idx 0).get "text").asStr

/-- The per-element step construction inside generate_job_plan: element i
of the decoded array becomes a step with a fresh id from the supply, order
(i + 1) cast to i32, the action string of the element (defaulting to
unknown), its params value, and pending status. -/
def mkStep (ids : Nat → String) (ie : Nat × Json) : JobStep :=
  { id := ids ie.1
    order := toI32 ((ie.1 : Int) + 1)
    action := ((ie.2.get "action").asStr).getD "unknown"
    params := ie.2.get "params"
    status := "pending" }

/-- generate_job_plan from autonomous_jobs.rs, with the outcome of the
HTTP call plus body decode passed in as llmResponse and the nanoid supply
passed in as ids (ids i is the id generated for the i-th created step).
The function extracts the reply text, strips markdown fences, decodes a
Vec of Values from it, and maps each element through mkStep. -/
def generate_job_plan (user_message : String) (ids : Nat → String)
    (llmResponse : Except String Json) : RResult JobPlan :=
  match llmResponse with
  | .error e => .err e
  | .ok body =>
    match extractContent body with
    | none => .err "No content in LLM response"
    | some content =>
      let json_str := stripFence content
      match from_str json_str with
      | none => .err "invalid JSON"
      | some v =>
        match v.asArray with
        | none => .err "invalid type: expected a sequence"
        | some steps_array =>
          .ok { description := user_message
                steps := steps_array.enum.map (mkStep ids) }

/-- The RETRY and ALTERNATIVE branch body of generate_recovery_plan. When
recovery["modified_step"] is an object, a replacement step is built from
it; the Map indexing modified["action"] and modified["params"] panics when
the key is absent. When modified_step is absent or not an object, no
replacement step is pushed. The remaining steps follow in both cases. -/
def retryBranch (failed_step : JobStep) (remaining_steps : List JobStep)
    (freshId : String) (recovery : Json) : RResult (List JobStep) :=
  match (recovery.get "modified_step").asObject with
  | some modified =>
    (match mapGet? modified "action", mapGet? modified "params" with
     | some av, some pv =>
       .ok ({ id := freshId
              order := failed_step.order
              action := av.asStr.getD failed_step.action
              params := pv
              status := "pending" } :: remaining_steps)
     | _, _ => .panicked "key not found")
  | none => .ok remaining_steps

/-- generate_recovery_plan from autonomous_jobs.rs, with the outcome of
the HTTP call plus body decode passed in as llmResponse and the one nanoid
the function can draw passed in as freshId. The function extracts the
reply text, strips fences, decodes one Value, and dispatches on its
decision field: SKIP keeps the remaining steps; RETRY and ALTERNATIVE run
retryBranch; ABORT and every other outcome of as_str, a missing decision
field included, produce the Recovery-aborted error built from the reason
field (defaulting to Unknown reason). -/
def generate_recovery_plan (failed_step : JobStep) (_error : String)
    (remaining_steps : List JobStep) (freshId : String)
    (llmResponse : Except String Json) : RResult (List JobStep) :=
  match llmResponse with
  | .error e => .err e
  | .ok body =>
    match extractContent body with
    | none => .err "No content in LLM response"
    | some content =>
      let json_str := stripFence content
      match from_str json_str with
      | none => .err "invalid JSON"
      | some recovery =>
        match (recovery.get "decision").asStr with
        | some "SKIP" => .ok remaining_steps
        | some "RETRY" => retryBranch failed_step remaining_steps freshId recovery
        | some "ALTERNATIVE" => retryBranch failed_step remaining_steps freshId recovery
        | _ =>
          .err ("Recovery aborted: " ++ (((recovery.get "reason").asStr).getD "Unknown reason"))

/-! The polling state machine, from autonomous_jobs_poller.rs. The channel
is modelled as an infallible sink: each poll returns the list of message
texts sent, in order. -/

/-- JobPoller state; channel_type is carried as an opaque string. -/
structure JobPoller where
  job_id : String
  channel_id : String
  channel_type : String
  harness_url : String
  last_step : Int
deriving Repr, Inhabited

/-- JobPoller::new: last_step starts at 0. -/
def JobPoller.new (job_id channel_id channel_type harness_url : String) : JobPoller :=
  { job_id, channel_id, channel_type, harness_url, last_step := 0 }

/-- capitalize_first from autonomous_jobs_poller.rs (the action tags at
hand are ASCII, where Rust char::to_uppercase is Char.toUpper). -/
def capitalize_first (s : String) : String :=
  match s.data with
  | [] => ""
  | first :: rest => String.mk (first.toUpper :: rest)

/-- The action to emoji mapping of the progress update. -/
def emojiFor (action : String) : String :=
  match action with
  | "discover" => "🔍"
  | "filter" => "🎯"
  | "enrich" => "📞"
  | "audit" => "🌐"
  | "analyze" => "📊"
  | "draft-email" => "✉️"
  | _ => "⚙️"

/-- The progress message built for the step entry found at the current
position: completed steps and in-progress steps render differently. -/
def progressMessage (step : Json) (current_step total_steps : Int) : String :=
  let action := ((step.get "action").asStr).getD "unknown"
  let step_status := ((step.get "status").asStr).getD "unknown"
  let emoji := emojiFor action
  if step_status = "completed" then
    emoji ++ " " ++ capitalize_first action ++ " complete! (" ++
      toString current_step ++ "/" ++ toString total_steps ++ ")"
  else
    emoji ++ " " ++ capitalize_first action ++ " in progress... (" ++
      toString current_step ++ "/" ++ toString total_steps ++ ")"

/-- The i32 current step read from the snapshot:
status["currentStep"].as_i64().unwrap_or(0) as i32. -/
def currentStepOf (status : Json) : Int :=
  toI32 (((status.get "currentStep").asI64).getD 0)

/-- The i32 total steps read from the snapshot:
status["totalSteps"].as_i64().unwrap_or(1) as i32. -/
def totalStepsOf (status : Json) : Int :=
  toI32 (((status.get "totalSteps").asI64).getD 1)

/-- The job status string read from the snapshot:
status["status"].as_str().unwrap_or("unknown"). -/
def jobStatusOf (status : Json) : String :=
  ((status.get "status").asStr).getD "unknown"

/-- The step-transition block of poll_and_notify: when the current step
advanced past last_step and is within total_steps, the step entry at the
1-based current position is looked up in the steps array; if found, one
progress message is sent; last_step is then set to the current step
whether or not a message was sent. Returns the updated poller and the
messages sent by this block. -/
def progressPart (p : JobPoller) (status : Json) : JobPoller × List String :=
  let current_step := currentStepOf status
  let total_steps := totalStepsOf status
  if current_step > p.last_step ∧ current_step ≤ total_steps then
    let msgs :=
      match (status.get "steps").asArray with
      | some steps =>
        (match steps.get? (toUsize (current_step - 1)) with
         | some step => [progressMessage step current_step total_steps]
         | none => [])
      | none => []
    ({ p with last_step := current_step }, msgs)
  else (p, [])

/-- The terminal-detection block of poll_and_notify: completed, failed and
cancelled each send one message and report terminal; every other status
string sends nothing and reports still running. -/
def terminalPart (status : Json) : List String × Bool :=
  match jobStatusOf status with
  | "completed" => (["✅ Job completed! Fetching results..."], true)
  | "failed" =>
    (["❌ Job failed: " ++ (((status.get "error").asStr).getD "Unknown error")], true)
  | "cancelled" => (["🛑 Job was cancelled"], true)
  | _ => ([], false)

/-- JobPoller::poll_and_notify, with the outcome of poll_job_status passed
in as statusResult. A transport error propagates through the question-mark
operator before any state change. Otherwise the step-transition block runs
first, then terminal detection; the messages are sent in that order. -/
def poll_and_notify (p : JobPoller) (statusResult : Except String Json) :
    Except String (JobPoller × List String × Bool) :=
  match statusResult with
  | .error e => .error e
  | .ok status =>
    let pp := progressPart p status
    let tp := terminalPart status
    .ok (pp.1, pp.2 ++ tp.1, tp.2)

/-- A poll session trace harness: fold poll_and_notify over a list of
decoded snapshots, keeping the poller state. -/
def pollTrace (p : JobPoller) : List Json → JobPoller
  | [] => p
  | s :: rest =>
    (match poll_and_notify p (.ok s) with
     | .ok (pr, _, _) => pollTrace pr rest
     | .error _ => pollTrace p rest)

/-! Result formatting, from autonomous_jobs_poller.rs. -/

/-- Rendering of an integer-valued double with one decimal place, as the
format specifier with precision 1 does on such a value. -/
def fmtF1 (n : Int) : String := toString n ++ ".0"

/-- The job-info block of format_job_results. results["job"].as_object()
yields a Map; indexing it with description or status panics when the key
is absent, modelled by none. Present keys of non-string value are skipped. -/
def formatJobInfo (results : Json) : Option String :=
  match (results.get "job").asObject with
  | none => some ""
  | some job =>
    match mapGet? job "description" with
    | none => none
    | some d =>
      match mapGet? job "status" with
      | none => none
      | some st =>
        let s1 := match d.asStr with
          | some desc => "**Task**: " ++ desc ++ "\n"
          | none => ""
        let s2 := match st.asStr with
          | some s => "**Status**: " ++ s ++ "\n"
          | none => ""
        some (s1 ++ s2 ++ "\n")

/-- One business entry line group: position i (0-based) and the entry
Value. Missing optional fields are omitted, a missing name renders as
Unknown. -/
def businessEntry (ib : Nat × Json) : String :=
  let i := ib.1
  let business := ib.2
  let name := ((business.get "name").asStr).getD "Unknown"
  let rating := (business.get "rating").asF64
  let reviews := (business.get "reviewCount").asI64
  let phone := (business.get "phone").asStr
  let website := (business.get "website").asStr
  let line := toString (i + 1) ++ ". **" ++ name ++ "**"
  let line := line ++ (match rating with
    | some r => " ⭐ " ++ fmtF1 r
    | none => "")
  let line := line ++ (match reviews with
    | some rev => " (" ++ toString rev ++ " reviews)"
    | none => "")
  let line := line ++ "\n"
  let line := line ++ (match phone with
    | some ph => "   📞 " ++ ph ++ "\n"
    | none => "")
  let line := line ++ (match website with
    | some w => "   🌐 " ++ w ++ "\n"
    | none => "")
  line ++ "\n"

/-- The businesses block of format_job_results: header with the full
count, the first 10 entries, and a more-suffix when more than 10 exist. -/
def businessesSection (results : Json) : String :=
  match (results.get "businesses").asArray with
  | none => ""
  | some businesses =>
    if businesses.isEmpty then ""
    else
      "🏢 **Found " ++ toString businesses.length ++ " Businesses:**\n\n" ++
      String.join (((businesses.take 10).enum.map businessEntry)) ++
      (if businesses.length > 10 then
        "...and " ++ toString (businesses.length - 10) ++ " more\n\n"
      else "")

/-- One contact entry line group: the name line (with optional role) is
printed only when a name is present; email and phone lines are printed
independently of the name. -/
def contactEntry (ic : Nat × Json) : String :=
  let i := ic.1
  let contact := ic.2
  let name := (contact.get "name").asStr
  let email := (contact.get "email").asStr
  let phone := (contact.get "phone").asStr
  let role := (contact.get "role").asStr
  let s := match name with
    | some n =>
      toString (i + 1) ++ ". **" ++ n ++ "**" ++
        (match role with
         | some r => " (" ++ r ++ ")"
         | none => "") ++ "\n"
    | none => ""
  let s := s ++ (match email with
    | some e => "   ✉️ " ++ e ++ "\n"
    | none => "")
  let s := s ++ (match phone with
    | some ph => "   📞 " ++ ph ++ "\n"
    | none => "")
  s ++ "\n"

/-- The contacts block of format_job_results, with the same first-10
truncation convention as the businesses block. -/
def contactsSection (results : Json) : String :=
  match (results.get "contacts").asArray with
  | none => ""
  | some contacts =>
    if contacts.isEmpty then ""
    else
      "📇 **Found " ++ toString contacts.length ++ " Contacts:**\n\n" ++
      String.join (((contacts.take 10).enum.map contactEntry)) ++
      (if contacts.length > 10 then
        "...and " ++ toString (contacts.length - 10) ++ " more\n\n"
      else "")

/-- format_job_results from autonomous_jobs_poller.rs: the fixed header,
then the job-info block (whose Map indexing can panic, modelled by none),
then the businesses block, then the contacts block. -/
def format_job_results (results : Json) : Option String :=
  match formatJobInfo results with
  | none => none
  | some jobPart =>
    some ("📊 **Job Results**\n\n" ++ jobPart ++
      businessesSection results ++ contactsSection results)

/-! Shared concrete fixtures used by witnesses and counterexamples. -/

/-- A deterministic id supply standing in for nanoid. -/
def exIds : Nat → String := fun i => "step-" ++ toString i

/-- A decoded model-service response body whose first content block holds
the given reply text. -/
def mkBody (content : String) : Json :=
  Json.obj [("content", Json.arr [Json.obj [("text", Json.str content)]])]

/-- A concrete failed step fixture. -/
def exFailedStep : JobStep :=
  { id := "step-old", order := 2, action := "enrich", params := Json.obj []
    status := "failed" }

/-- A concrete remaining step fixture. -/
def exRemainingStep : JobStep :=
  { id := "step-r1", order := 3, action := "draft-email", params := Json.obj []
    status := "pending" }

/-- A status snapshot fixture with the given current step, total steps,
job status and steps array. -/
def mkSnap (cur tot : Int) (status : String) (steps : List Json) : Json :=
  Json.obj [("status", Json.str status), ("currentStep", Json.num cur),
    ("totalSteps", Json.num tot), ("steps", Json.arr steps)]

/-- A step entry fixture for snapshot steps arrays. -/
def mkStepEntry (action status : String) : Json :=
  Json.obj [("action", Json.str action), ("status", Json.str status)]

/-! Claim C1. -/

/-- Claim C1 counterexample: a model reply whose stripped content parses
as the empty JSON array does not make generate_job_plan return an error;
it returns a plan with zero steps. -/
theorem claim1_empty_array_counterexample :
    from_str (stripFence "[]") = some (Json.arr []) ∧
    generate_job_plan "find plumbers and email them" exIds (.ok (mkBody "[]")) =
      .ok { description := "find plumbers and email them", steps := [] } :=
  ⟨rfl, rfl⟩

/-- Claim C1 as amended: transport failure, missing reply content, and
content that is not decodable as a JSON array each surface as an error
with no partial plan; but a reply whose stripped content parses as the
empty JSON array is not an error: it yields a plan with an empty step
list. -/
theorem claim1_failure_modes (msg : String) (ids : Nat → String) :
    (∀ e, generate_job_plan msg ids (.error e) = .err e) ∧
    (∀ body, extractContent body = none →
      generate_job_plan msg ids (.ok body) = .err "No content in LLM response") ∧
    (∀ body content, extractContent body = some content →
      from_str (stripFence content) = none →
      generate_job_plan msg ids (.ok body) = .err "invalid JSON") ∧
    (∀ body content v, extractContent body = some content →
      from_str (stripFence content) = some v → v.asArray = none →
      generate_job_plan msg ids (.ok body) = .err "invalid type: expected a sequence") ∧
    (∀ body content, extractContent body = some content →
      from_str (stripFence content) = some (Json.arr []) →
      generate_job_plan msg ids (.ok body) = .ok { description := msg, steps := [] }) := by
  refine ⟨fun e => rfl, ?_, ?_, ?_, ?_⟩
  · intro body h
    simp [generate_job_plan, h]
  · intro body content h1 h2
    simp [generate_job_plan, h1, h2]
  · intro body content v h1 h2 h3
    simp [generate_job_plan, h1, h2, h3]
  · intro body content h1 h2
    simp [generate_job_plan, h1, h2, Json.asArray, List.enum]

/-- Claim C1 witness: the amended theorem applied to concrete inputs
covering the missing-content case and the empty-array case. -/
theorem claim1_failure_modes_witness :
    generate_job_plan "m" exIds (.ok (Json.obj [])) = .err "No content in LLM response" ∧
    generate_job_plan "m" exIds (.ok (mkBody "not json")) = .err "invalid JSON" ∧
    generate_job_plan "m" exIds (.ok (mkBody "\x7b\x7d")) = .err "invalid type: expected a sequence" ∧
    generate_job_plan "m" exIds (.ok (mkBody "```json\n[]\n```")) =
      .ok { description := "m", steps := [] } :=
  ⟨(claim1_failure_modes "m" exIds).2.1 (Json.obj []) rfl,
   (claim1_failure_modes "m" exIds).2.2.1 (mkBody "not json") "not json" rfl rfl,
   (claim1_failure_modes "m" exIds).2.2.2.1 (mkBody "\x7b\x7d") "\x7b\x7d" (Json.obj []) rfl rfl rfl,
   (claim1_failure_modes "m" exIds).2.2.2.2 (mkBody "```json\n[]\n```") "```json\n[]\n```"
     rfl rfl⟩

/-! Claim C2. -/

/-- The i32 cast is the identity on values already in i32 range. -/
theorem toI32_eq_self (n : Int) (h1 : -(2 ^ 31) ≤ n) (h2 : n < 2 ^ 31) : toI32 n = n := by
  unfold toI32
  have hlo : (0 : Int) ≤ n + 2 ^ 31 := by omega
  have hhi : n + 2 ^ 31 < 2 ^ 32 := by omega
  rw [Int.emod_eq_of_lt hlo hhi]
  omega

/-- Claim C2: a model reply whose stripped content parses as a JSON array
of n elements yields a plan of exactly n steps; the step at 0-based
position i carries order i + 1 (independent of any order value in the
element), pending status, and a fresh id from the supply, all ids
non-empty and pairwise distinct when the supply is injective and
non-empty on the positions used. The array length bound reflects the i32
cast on the reassigned order. -/
theorem claim2_plan_shape (msg content : String) (ids : Nat → String) (body : Json)
    (elems : List Json)
    (hc : extractContent body = some content)
    (hp : from_str (stripFence content) = some (Json.arr elems))
    (hlen : elems.length < 2 ^ 31)
    (hinj : ∀ i j, i < elems.length → j < elems.length → ids i = ids j → i = j)
    (hne : ∀ i, i < elems.length → ids i ≠ "") :
    ∃ plan, generate_job_plan msg ids (.ok body) = .ok plan ∧
      plan.description = msg ∧
      plan.steps.length = elems.length ∧
      (∀ i (h : i < plan.steps.length),
        (plan.steps[i]).order = (i : Int) + 1 ∧
        (plan.steps[i]).status = "pending" ∧
        (plan.steps[i]).id = ids i ∧
        (plan.steps[i]).id ≠ "") ∧
      (∀ i j (hi : i < plan.steps.length) (hj : j < plan.steps.length),
        i ≠ j → (plan.steps[i]).id ≠ (plan.steps[j]).id) := by
  refine ⟨{ description := msg, steps := elems.enum.map (mkStep ids) }, ?_, rfl, ?_, ?_, ?_⟩
  · simp [generate_job_plan, hc, hp, Json.asArray]
  · simp [List.enum_length]
  · intro i h
    have hi : i < elems.length := by simpa [List.enum_length] using h
    have hstep : (elems.enum.map (mkStep ids))[i] = mkStep ids (i, elems[i]) := by
      simp [List.getElem_enum]
    refine ⟨?_, ?_, ?_, ?_⟩
    · rw [hstep]
      show toI32 ((i : Int) + 1) = (i : Int) + 1
      refine toI32_eq_self _ (by omega) ?_
      have : (i : Int) < (elems.length : Int) := by exact_mod_cast hi
      have hlen2 : (elems.length : Int) < 2 ^ 31 := by exact_mod_cast hlen
      omega
    · rw [hstep]; rfl
    · rw [hstep]; rfl
    · rw [hstep]
      exact hne i hi
  · intro i j hi hj hij
    have hi2 : i < elems.length := by simpa [List.enum_length] using hi
    have hj2 : j < elems.length := by simpa [List.enum_length] using hj
    have hsi : (elems.enum.map (mkStep ids))[i] = mkStep ids (i, elems[i]) := by
      simp [List.getElem_enum]
    have hsj : (elems.enum.map (mkStep ids))[j] = mkStep ids (j, elems[j]) := by
      simp [List.getElem_enum]
    rw [hsi, hsj]
    show ids i ≠ ids j
    intro heq
    exact hij (hinj i j hi2 hj2 heq)

/-- Claim C2 witness: the plan-shape theorem applied to a concrete
two-element reply carrying misleading order fields. -/
theorem claim2_plan_shape_witness :
    ∃ plan,
      generate_job_plan "find hvac and enrich" exIds
        (.ok (mkBody
          "[\x7b\"order\":7,\"action\":\"discover\",\"params\":\x7b\x7d\x7d,\x7b\"order\":7,\"action\":\"enrich\",\"params\":\x7b\x7d\x7d]")) =
        .ok plan ∧
      plan.description = "find hvac and enrich" ∧
      plan.steps.length =
        ([Json.obj [("order", Json.num 7), ("action", Json.str "discover"),
            ("params", Json.obj [])],
          Json.obj [("order", Json.num 7), ("action", Json.str "enrich"),
            ("params", Json.obj [])]] : List Json).length ∧
      (∀ i (h : i < plan.steps.length),
        (plan.steps[i]).order = (i : Int) + 1 ∧
        (plan.steps[i]).status = "pending" ∧
        (plan.steps[i]).id = exIds i ∧
        (plan.steps[i]).id ≠ "") ∧
      (∀ i j (hi : i < plan.steps.length) (hj : j < plan.steps.length),
        i ≠ j → (plan.steps[i]).id ≠ (plan.steps[j]).id) := by
  refine claim2_plan_shape _ _ exIds _ _ rfl rfl (by norm_num) ?_ ?_
  · intro i j hi hj h
    have hi2 : i < 2 := by simpa using hi
    have hj2 : j < 2 := by simpa using hj
    interval_cases i <;> interval_cases j <;> first
      | rfl
      | exact absurd h (by decide)
  · intro i hi
    have hi2 : i < 2 := by simpa using hi
    interval_cases i <;> decide

/-! Claim C3. -/

/-- Claim C3 counterexample: a RETRY reply whose modified_step object
omits the action key does not fall back to the failed step action; the
Map indexing modified["action"] panics, so no step sequence is returned. -/
theorem claim3_missing_action_counterexample :
    generate_recovery_plan exFailedStep "boom" [exRemainingStep] "step-new"
      (.ok (mkBody "\x7b\"decision\":\"RETRY\",\"modified_step\":\x7b\"params\":\x7b\x7d\x7d\x7d")) =
      .panicked "key not found" :=
  rfl

/-- Claim C3 as amended: for a RETRY or ALTERNATIVE decision that
supplies a modified_step object containing both an action and a params
entry, the result is one new step carrying the failed step order, the
fresh id, the model-supplied action (falling back to the failed step
action when the supplied action value is not a string), pending status,
followed by the original remaining steps unchanged; a modified_step
object lacking either key panics instead. -/
theorem claim3_retry_replacement (failed : JobStep) (remaining : List JobStep)
    (freshId errText content : String) (body recovery : Json)
    (modified : List (String × Json)) (av pv : Json)
    (hc : extractContent body = some content)
    (hp : from_str (stripFence content) = some recovery)
    (hdec : (recovery.get "decision").asStr = some "RETRY" ∨
            (recovery.get "decision").asStr = some "ALTERNATIVE")
    (hmod : (recovery.get "modified_step").asObject = some modified)
    (ha : mapGet? modified "action" = some av)
    (hpv : mapGet? modified "params" = some pv)
    (hid : freshId ≠ failed.id) :
    ∃ newStep,
      generate_recovery_plan failed errText remaining freshId (.ok body) =
        .ok (newStep :: remaining) ∧
      newStep.order = failed.order ∧
      newStep.id = freshId ∧
      newStep.id ≠ failed.id ∧
      newStep.action = av.asStr.getD failed.action ∧
      newStep.params = pv ∧
      newStep.status = "pending" := by
  refine ⟨{ id := freshId, order := failed.order, action := av.asStr.getD failed.action
            params := pv, status := "pending" }, ?_, rfl, rfl, hid, rfl, rfl, rfl⟩
  rcases hdec with h | h <;>
    simp [generate_recovery_plan, hc, hp, h, retryBranch, hmod, ha, hpv]

/-- Claim C3 witness: the amended theorem applied to a concrete
ALTERNATIVE reply whose supplied action value is not a string, so the
fallback to the failed step action engages. -/
theorem claim3_retry_replacement_witness :
    ∃ newStep,
      generate_recovery_plan exFailedStep "boom" [exRemainingStep] "step-new"
        (.ok (mkBody
          "\x7b\"decision\":\"ALTERNATIVE\",\"modified_step\":\x7b\"action\":5,\"params\":\x7b\"q\":1\x7d\x7d\x7d")) =
        .ok (newStep :: [exRemainingStep]) ∧
      newStep.order = exFailedStep.order ∧
      newStep.id = "step-new" ∧
      newStep.id ≠ exFailedStep.id ∧
      newStep.action = (Json.num 5).asStr.getD exFailedStep.action ∧
      newStep.params = Json.obj [("q", Json.num 1)] ∧
      newStep.status = "pending" := by
  refine claim3_retry_replacement exFailedStep [exRemainingStep] "step-new" "boom"
    _ (mkBody _) _ [("action", Json.num 5), ("params", Json.obj [("q", Json.num 1)])]
    (Json.num 5) (Json.obj [("q", Json.num 1)]) rfl rfl (Or.inr rfl) rfl rfl rfl (by decide)

/-! Claim C4. -/

/-- Claim C4 counterexample: a reply that parses as JSON but lacks the
decision field produces exactly the same error as an explicit ABORT with
the same reason, so the two cases are not distinguishable. -/
theorem claim4_missing_decision_counterexample :
    generate_recovery_plan exFailedStep "boom" [exRemainingStep] "step-new"
      (.ok (mkBody "\x7b\"reason\":\"rate limited\"\x7d")) =
      .err "Recovery aborted: rate limited" ∧
    generate_recovery_plan exFailedStep "boom" [exRemainingStep] "step-new"
      (.ok (mkBody "\x7b\"decision\":\"ABORT\",\"reason\":\"rate limited\"\x7d")) =
      .err "Recovery aborted: rate limited" :=
  ⟨rfl, rfl⟩

/-- Claim C4 as amended: explicit ABORT, any unrecognized decision
string, and a missing decision field all fail with the same
Recovery-aborted error carrying the model-supplied reason or the default;
only a reply whose stripped content fails JSON parsing produces an error
distinct from the Recovery-aborted form. -/
theorem claim4_abort_policy (failed : JobStep) (remaining : List JobStep)
    (freshId errText content : String) (body recovery : Json)
    (hc : extractContent body = some content)
    (hp : from_str (stripFence content) = some recovery) :
    ((recovery.get "decision").asStr = some "ABORT" →
      generate_recovery_plan failed errText remaining freshId (.ok body) =
        .err ("Recovery aborted: " ++ (((recovery.get "reason").asStr).getD "Unknown reason"))) ∧
    (∀ d, (recovery.get "decision").asStr = some d →
      d ≠ "SKIP" → d ≠ "RETRY" → d ≠ "ALTERNATIVE" →
      generate_recovery_plan failed errText remaining freshId (.ok body) =
        .err ("Recovery aborted: " ++ (((recovery.get "reason").asStr).getD "Unknown reason"))) ∧
    ((recovery.get "decision").asStr = none →
      generate_recovery_plan failed errText remaining freshId (.ok body) =
        .err ("Recovery aborted: " ++ (((recovery.get "reason").asStr).getD "Unknown reason"))) ∧
    (∀ body2 content2, extractContent body2 = some content2 →
      from_str (stripFence content2) = none →
      generate_recovery_plan failed errText remaining freshId (.ok body2) =
        .err "invalid JSON" ∧
      ∀ r, "invalid JSON" ≠ "Recovery aborted: " ++ r) := by
  refine ⟨?_, ?_, ?_, ?_⟩
  · intro h
    simp [generate_recovery_plan, hc, hp, h]
  · intro d h hd1 hd2 hd3
    simp only [generate_recovery_plan, hc, hp, h]
    split
    · next heq => exact absurd (Option.some.inj heq) hd1
    · next heq => exact absurd (Option.some.inj heq) hd2
    · next heq => exact absurd (Option.some.inj heq) hd3
    · rfl
  · intro h
    simp [generate_recovery_plan, hc, hp, h]
  · intro body2 content2 h1 h2
    refine ⟨by simp [generate_recovery_plan, h1, h2], ?_⟩
    intro r h
    have := congrArg String.length h
    simp [String.length_append] at this
    have h12 : ("invalid JSON" : String).length = 12 := rfl
    have h18 : ("Recovery aborted: " : String).length = 18 := rfl
    omega

/-- Claim C4 witness: the amended theorem applied to concrete replies
with an unrecognized decision, and to a concrete unparsable reply. -/
theorem claim4_abort_policy_witness :
    generate_recovery_plan exFailedStep "boom" [] "step-new"
      (.ok (mkBody "\x7b\"decision\":\"PUNT\"\x7d")) =
      .err "Recovery aborted: Unknown reason" ∧
    generate_recovery_plan exFailedStep "boom" [] "step-new"
      (.ok (mkBody "no json here")) = .err "invalid JSON" := by
  refine ⟨?_, ?_⟩
  · exact (claim4_abort_policy exFailedStep [] "step-new" "boom" "\x7b\"decision\":\"PUNT\"\x7d"
      (mkBody "\x7b\"decision\":\"PUNT\"\x7d") (Json.obj [("decision", Json.str "PUNT")]) rfl
      rfl).2.1 "PUNT" rfl (by decide) (by decide) (by decide)
  · exact ((claim4_abort_policy exFailedStep [] "step-new" "boom" "\x7b\"decision\":\"PUNT\"\x7d"
      (mkBody "\x7b\"decision\":\"PUNT\"\x7d") (Json.obj [("decision", Json.str "PUNT")]) rfl
      rfl).2.2.2 (mkBody "no json here") "no json here" rfl rfl).1

/-! Poller lemmas shared by the poll-loop claims. -/

/-- On a decoded snapshot, poll_and_notify never errors: it returns the
state of the step-transition block, its messages followed by the terminal
block messages, and the terminal flag. -/
theorem poll_and_notify_ok (p : JobPoller) (status : Json) :
    poll_and_notify p (.ok status) =
      .ok ((progressPart p status).1,
        (progressPart p status).2 ++ (terminalPart status).1,
        (terminalPart status).2) := rfl

/-- The terminal block on a completed snapshot. -/
theorem terminalPart_completed (s : Json) (h : jobStatusOf s = "completed") :
    terminalPart s = (["✅ Job completed! Fetching results..."], true) := by
  simp [terminalPart, h]

/-- The terminal block on a failed snapshot. -/
theorem terminalPart_failed (s : Json) (h : jobStatusOf s = "failed") :
    terminalPart s =
      (["❌ Job failed: " ++ (((s.get "error").asStr).getD "Unknown error")], true) := by
  simp [terminalPart, h]

/-- The terminal block on a cancelled snapshot. -/
theorem terminalPart_cancelled (s : Json) (h : jobStatusOf s = "cancelled") :
    terminalPart s = (["🛑 Job was cancelled"], true) := by
  simp [terminalPart, h]

/-- The terminal block on any other status string: no message, not
terminal. -/
theorem terminalPart_running (s : Json) (h1 : jobStatusOf s ≠ "completed")
    (h2 : jobStatusOf s ≠ "failed") (h3 : jobStatusOf s ≠ "cancelled") :
    terminalPart s = ([], false) := by
  unfold terminalPart
  split
  · next heq => exact absurd heq h1
  · next heq => exact absurd heq h2
  · next heq => exact absurd heq h3
  · rfl

/-- The step-transition block when the current step has not advanced past
last_step (or exceeds total_steps): state and messages unchanged. -/
theorem progressPart_no_change (p : JobPoller) (s : Json)
    (h : ¬(currentStepOf s > p.last_step ∧ currentStepOf s ≤ totalStepsOf s)) :
    progressPart p s = (p, []) := by
  simp only [progressPart]
  rw [if_neg h]

/-- The step-transition block when the step advanced and the step entry
is found: one progress message, and last_step moves to the current step. -/
theorem progressPart_advance_found (p : JobPoller) (s : Json) (steps : List Json)
    (step : Json)
    (h : currentStepOf s > p.last_step ∧ currentStepOf s ≤ totalStepsOf s)
    (hs : (s.get "steps").asArray = some steps)
    (hstep : steps.get? (toUsize (currentStepOf s - 1)) = some step) :
    progressPart p s = ({ p with last_step := currentStepOf s },
      [progressMessage step (currentStepOf s) (totalStepsOf s)]) := by
  simp only [progressPart]
  rw [if_pos h, hs]
  rw [List.get?_eq_getElem?] at hstep
  simp [hstep]

/-- The step-transition block when the step advanced but no step entry is
available at the current position: no message, yet last_step still moves
to the current step. -/
theorem progressPart_advance_missing (p : JobPoller) (s : Json)
    (h : currentStepOf s > p.last_step ∧ currentStepOf s ≤ totalStepsOf s)
    (hs : (s.get "steps").asArray = none ∨
      ∃ steps, (s.get "steps").asArray = some steps ∧
        steps.get? (toUsize (currentStepOf s - 1)) = none) :
    progressPart p s = ({ p with last_step := currentStepOf s }, []) := by
  simp only [progressPart]
  rw [if_pos h]
  rcases hs with hnone | ⟨steps, hsome, hget⟩
  · rw [hnone]
  · rw [hsome]
    rw [List.get?_eq_getElem?] at hget
    simp [hget]

/-- One step-transition block never decreases last_step. -/
theorem progressPart_mono (p : JobPoller) (s : Json) :
    p.last_step ≤ ((progressPart p s).1).last_step := by
  by_cases h : currentStepOf s > p.last_step ∧ currentStepOf s ≤ totalStepsOf s
  · simp only [progressPart]
    rw [if_pos h]
    rcases hs : (s.get "steps").asArray with _ | steps
    · exact le_of_lt h.1
    · rcases hstep : steps.get? (toUsize (currentStepOf s - 1)) with _ | step <;>
        exact le_of_lt h.1
  · rw [progressPart_no_change p s h]

/-! Claim C7. -/

/-- Claim C7: last_step starts at 0 in a fresh poll session, a successful
invocation of poll_and_notify never decreases it, and it is monotonically
non-decreasing along any sequence of polled snapshots. -/
theorem claim7_last_step_monotone (jid cid ctype hurl : String) (p pr : JobPoller)
    (sr : Except String Json) (msgs : List String) (term : Bool)
    (h : poll_and_notify p sr = .ok (pr, msgs, term)) :
    (JobPoller.new jid cid ctype hurl).last_step = 0 ∧
    p.last_step ≤ pr.last_step ∧
    ∀ snaps : List Json, p.last_step ≤ (pollTrace p snaps).last_step := by
  refine ⟨rfl, ?_, ?_⟩
  · rcases sr with e | status
    · exact absurd h (by simp [poll_and_notify])
    · rw [poll_and_notify_ok] at h
      have hpr : pr = (progressPart p status).1 := by
        injection h with h2
        exact (congrArg (fun t => t.1) h2).symm
      rw [hpr]
      exact progressPart_mono p status
  · intro snaps
    clear h
    induction snaps generalizing p with
    | nil => exact le_refl _
    | cons s rest ih =>
      calc p.last_step ≤ ((progressPart p s).1).last_step := progressPart_mono p s
        _ ≤ (pollTrace ((progressPart p s).1) rest).last_step := ih _
        _ = (pollTrace p (s :: rest)).last_step := by
            simp [pollTrace, poll_and_notify_ok]

/-- Claim C7 witness: the monotonicity theorem applied to a concrete
invocation that advances the step counter. -/
theorem claim7_last_step_monotone_witness :
    (JobPoller.new "j1" "c1" "telegram" "http.server").last_step = 0 ∧
    (JobPoller.new "j1" "c1" "telegram" "http.server").last_step ≤
      ({ JobPoller.new "j1" "c1" "telegram" "http.server" with last_step := 1 }).last_step ∧
    ∀ snaps : List Json,
      (JobPoller.new "j1" "c1" "telegram" "http.server").last_step ≤
        (pollTrace (JobPoller.new "j1" "c1" "telegram" "http.server") snaps).last_step := by
  exact claim7_last_step_monotone "j1" "c1" "telegram" "http.server"
    (JobPoller.new "j1" "c1" "telegram" "http.server")
    { JobPoller.new "j1" "c1" "telegram" "http.server" with last_step := 1 }
    (.ok (mkSnap 1 3 "running" [mkStepEntry "discover" "running"]))
    ["🔍 Discover in progress... (1/3)"] false rfl

/-! Claim C6. -/

/-- Claim C6: on every decoded snapshot poll_and_notify reports terminal
exactly when the status string is completed, failed or cancelled, the
matching completion, failure or cancellation notification is the last
message sent (the failure one carrying the snapshot error or the default
text), and every other status string, unrecognized ones included, reports
still running. -/
theorem claim6_terminal_detection (p : JobPoller) (snapshot : Json) :
    ∃ pr msgs term,
      poll_and_notify p (.ok snapshot) = .ok (pr, msgs, term) ∧
      (term = true ↔ (jobStatusOf snapshot = "completed" ∨
        jobStatusOf snapshot = "failed" ∨ jobStatusOf snapshot = "cancelled")) ∧
      (jobStatusOf snapshot = "completed" →
        msgs.getLast? = some "✅ Job completed! Fetching results...") ∧
      (jobStatusOf snapshot = "failed" →
        msgs.getLast? = some ("❌ Job failed: " ++
          (((snapshot.get "error").asStr).getD "Unknown error"))) ∧
      (jobStatusOf snapshot = "cancelled" →
        msgs.getLast? = some "🛑 Job was cancelled") := by
  refine ⟨(progressPart p snapshot).1,
    (progressPart p snapshot).2 ++ (terminalPart snapshot).1,
    (terminalPart snapshot).2, poll_and_notify_ok p snapshot, ?_, ?_, ?_, ?_⟩
  · constructor
    · intro hterm
      by_cases h1 : jobStatusOf snapshot = "completed"
      · exact Or.inl h1
      by_cases h2 : jobStatusOf snapshot = "failed"
      · exact Or.inr (Or.inl h2)
      by_cases h3 : jobStatusOf snapshot = "cancelled"
      · exact Or.inr (Or.inr h3)
      rw [terminalPart_running snapshot h1 h2 h3] at hterm
      exact absurd hterm (by decide)
    · rintro (h | h | h)
      · rw [terminalPart_completed snapshot h]
      · rw [terminalPart_failed snapshot h]
      · rw [terminalPart_cancelled snapshot h]
  · intro h
    rw [terminalPart_completed snapshot h]
    exact List.getLast?_concat _
  · intro h
    rw [terminalPart_failed snapshot h]
    exact List.getLast?_concat _
  · intro h
    rw [terminalPart_cancelled snapshot h]
    exact List.getLast?_concat _

/-- Claim C6 witness: the terminal-detection theorem applied to a
concrete failed snapshot without an error field, forcing the default
failure text, and to a concrete snapshot with an unrecognized status. -/
theorem claim6_terminal_detection_witness :
    (∃ pr msgs, poll_and_notify (JobPoller.new "j1" "c1" "telegram" "u") (.ok
      (Json.obj [("status", Json.str "failed"), ("currentStep", Json.num 0),
        ("totalSteps", Json.num 2)])) = .ok (pr, msgs, true) ∧
      msgs.getLast? = some "❌ Job failed: Unknown error") ∧
    (∃ pr msgs, poll_and_notify (JobPoller.new "j1" "c1" "telegram" "u") (.ok
      (mkSnap 0 2 "paused" [])) = .ok (pr, msgs, false)) := by
  constructor
  · obtain ⟨pr, msgs, term, hpoll, hiff, hcomp, hfail, hcanc⟩ :=
      claim6_terminal_detection (JobPoller.new "j1" "c1" "telegram" "u")
        (Json.obj [("status", Json.str "failed"), ("currentStep", Json.num 0),
          ("totalSteps", Json.num 2)])
    have hterm : term = true := hiff.mpr (Or.inr (Or.inl rfl))
    refine ⟨pr, msgs, ?_, ?_⟩
    · rw [← hterm]; exact hpoll
    · simpa using hfail rfl
  · obtain ⟨pr, msgs, term, hpoll, hiff, _⟩ :=
      claim6_terminal_detection (JobPoller.new "j1" "c1" "telegram" "u")
        (mkSnap 0 2 "paused" [])
    have hterm : term = false := by
      rcases Bool.eq_false_or_eq_true term with h | h
      · rcases hiff.mp h with hc | hc | hc <;> exact absurd hc (by decide)
      · exact h
    refine ⟨pr, msgs, ?_⟩
    rw [← hterm]; exact hpoll

/-! Claims C5 and C9. -/

/-- The i32 read of currentStep under an explicit in-range field value. -/
theorem currentStepOf_eq (s : Json) (n : Int)
    (h : (s.get "currentStep").asI64 = some n)
    (h1 : -(2 ^ 31) ≤ n) (h2 : n < 2 ^ 31) : currentStepOf s = n := by
  unfold currentStepOf
  rw [h, Option.getD_some]
  exact toI32_eq_self n h1 h2

/-- The i32 read of totalSteps under an explicit in-range field value. -/
theorem totalStepsOf_eq (s : Json) (n : Int)
    (h : (s.get "totalSteps").asI64 = some n)
    (h1 : -(2 ^ 31) ≤ n) (h2 : n < 2 ^ 31) : totalStepsOf s = n := by
  unfold totalStepsOf
  rw [h, Option.getD_some]
  exact toI32_eq_self n h1 h2

/-- The i32 cast always lands in i32 range. -/
theorem toI32_bounds (n : Int) : -(2 ^ 31) ≤ toI32 n ∧ toI32 n < 2 ^ 31 := by
  unfold toI32
  have ha := Int.emod_nonneg (n + 2 ^ 31) (by norm_num : (2 ^ 32 : Int) ≠ 0)
  have hb := Int.emod_lt_of_pos (n + 2 ^ 31) (by norm_num : (0 : Int) < 2 ^ 32)
  omega

/-- The usize cast is Int.toNat on non-negative in-range values. -/
theorem toUsize_eq (m : Int) (h0 : 0 ≤ m) (h1 : m < 2 ^ 64) : toUsize m = m.toNat := by
  unfold toUsize
  rw [Int.emod_eq_of_lt h0 h1]

/-- Claim C5: across three consecutive snapshots of one fresh poll
session with currentStep 1, 1, 2 and totalSteps 3, all still running and
carrying step entries at the current positions, exactly one progress
message is sent after the first snapshot, none after the repeated second
snapshot, and exactly one more after the third. -/
theorem claim5_poll_sequence (jid cid ctype hurl : String) (s1 s2 s3 : Json)
    (steps1 steps3 : List Json) (step1 step3 : Json)
    (h1c : (s1.get "currentStep").asI64 = some 1)
    (h1t : (s1.get "totalSteps").asI64 = some 3)
    (h2c : (s2.get "currentStep").asI64 = some 1)
    (_h2t : (s2.get "totalSteps").asI64 = some 3)
    (h3c : (s3.get "currentStep").asI64 = some 2)
    (h3t : (s3.get "totalSteps").asI64 = some 3)
    (hr1 : jobStatusOf s1 ≠ "completed" ∧ jobStatusOf s1 ≠ "failed" ∧
      jobStatusOf s1 ≠ "cancelled")
    (hr2 : jobStatusOf s2 ≠ "completed" ∧ jobStatusOf s2 ≠ "failed" ∧
      jobStatusOf s2 ≠ "cancelled")
    (hr3 : jobStatusOf s3 ≠ "completed" ∧ jobStatusOf s3 ≠ "failed" ∧
      jobStatusOf s3 ≠ "cancelled")
    (hs1 : (s1.get "steps").asArray = some steps1)
    (hstep1 : steps1.get? 0 = some step1)
    (hs3 : (s3.get "steps").asArray = some steps3)
    (hstep3 : steps3.get? 1 = some step3) :
    poll_and_notify (JobPoller.new jid cid ctype hurl) (.ok s1) =
      .ok ({ JobPoller.new jid cid ctype hurl with last_step := 1 },
        [progressMessage step1 1 3], false) ∧
    poll_and_notify { JobPoller.new jid cid ctype hurl with last_step := 1 } (.ok s2) =
      .ok ({ JobPoller.new jid cid ctype hurl with last_step := 1 }, [], false) ∧
    poll_and_notify { JobPoller.new jid cid ctype hurl with last_step := 1 } (.ok s3) =
      .ok ({ JobPoller.new jid cid ctype hurl with last_step := 2 },
        [progressMessage step3 2 3], false) := by
  have c1 := currentStepOf_eq s1 1 h1c (by norm_num) (by norm_num)
  have t1 := totalStepsOf_eq s1 3 h1t (by norm_num) (by norm_num)
  have c2 := currentStepOf_eq s2 1 h2c (by norm_num) (by norm_num)
  have c3 := currentStepOf_eq s3 2 h3c (by norm_num) (by norm_num)
  have t3 := totalStepsOf_eq s3 3 h3t (by norm_num) (by norm_num)
  refine ⟨?_, ?_, ?_⟩
  · rw [poll_and_notify_ok,
      progressPart_advance_found _ _ steps1 step1
        (by rw [c1, t1]; exact ⟨by simp [JobPoller.new], by norm_num⟩)
        hs1 (by rw [c1]; exact hstep1),
      terminalPart_running s1 hr1.1 hr1.2.1 hr1.2.2]
    rw [c1, t1]
    rfl
  · rw [poll_and_notify_ok,
      progressPart_no_change _ _ (by rw [c2]; intro hcontra; exact absurd hcontra.1 (by norm_num)),
      terminalPart_running s2 hr2.1 hr2.2.1 hr2.2.2]
    rfl
  · rw [poll_and_notify_ok,
      progressPart_advance_found _ _ steps3 step3 (by rw [c3, t3]; exact ⟨by norm_num, by norm_num⟩)
        hs3 (by rw [c3]; exact hstep3),
      terminalPart_running s3 hr3.1 hr3.2.1 hr3.2.2]
    rw [c3, t3]
    rfl

/-- Claim C5 witness: the poll-sequence theorem applied to three concrete
snapshots with currentStep 1, 1, 2 out of 3. -/
theorem claim5_poll_sequence_witness :
    poll_and_notify (JobPoller.new "j1" "c1" "telegram" "u")
      (.ok (mkSnap 1 3 "running" [mkStepEntry "discover" "running",
        mkStepEntry "enrich" "pending", mkStepEntry "draft-email" "pending"])) =
      .ok ({ JobPoller.new "j1" "c1" "telegram" "u" with last_step := 1 },
        [progressMessage (mkStepEntry "discover" "running") 1 3], false) ∧
    poll_and_notify { JobPoller.new "j1" "c1" "telegram" "u" with last_step := 1 }
      (.ok (mkSnap 1 3 "running" [mkStepEntry "discover" "running",
        mkStepEntry "enrich" "pending", mkStepEntry "draft-email" "pending"])) =
      .ok ({ JobPoller.new "j1" "c1" "telegram" "u" with last_step := 1 }, [], false) ∧
    poll_and_notify { JobPoller.new "j1" "c1" "telegram" "u" with last_step := 1 }
      (.ok (mkSnap 2 3 "running" [mkStepEntry "discover" "completed",
        mkStepEntry "enrich" "running", mkStepEntry "draft-email" "pending"])) =
      .ok ({ JobPoller.new "j1" "c1" "telegram" "u" with last_step := 2 },
        [progressMessage (mkStepEntry "enrich" "running") 2 3], false) := by
  exact claim5_poll_sequence "j1" "c1" "telegram" "u" _ _ _ _ _ _ _
    rfl rfl rfl rfl rfl rfl
    ⟨by decide, by decide, by decide⟩ ⟨by decide, by decide, by decide⟩
    ⟨by decide, by decide, by decide⟩
    rfl rfl rfl rfl

/-- Claim C9: when the current step advanced within range but the steps
array is missing or has fewer than currentStep entries, no message is
sent, yet last_step still advances to the current step; polling the same
snapshot again afterwards sends nothing either, so that transition is
never notified. -/
theorem claim9_advance_without_message (p : JobPoller) (snapshot : Json)
    (hlast : 0 ≤ p.last_step)
    (hgt : currentStepOf snapshot > p.last_step)
    (hle : currentStepOf snapshot ≤ totalStepsOf snapshot)
    (hsteps : (snapshot.get "steps").asArray = none ∨
      ∃ l, (snapshot.get "steps").asArray = some l ∧
        (l.length : Int) < currentStepOf snapshot)
    (hrun : jobStatusOf snapshot ≠ "completed" ∧ jobStatusOf snapshot ≠ "failed" ∧
      jobStatusOf snapshot ≠ "cancelled") :
    poll_and_notify p (.ok snapshot) =
      .ok ({ p with last_step := currentStepOf snapshot }, [], false) ∧
    poll_and_notify { p with last_step := currentStepOf snapshot } (.ok snapshot) =
      .ok ({ p with last_step := currentStepOf snapshot }, [], false) := by
  have hbounds := toI32_bounds (((snapshot.get "currentStep").asI64).getD 0)
  have hcur : currentStepOf snapshot < 2 ^ 31 := by
    unfold currentStepOf
    exact hbounds.2
  have husize : toUsize (currentStepOf snapshot - 1) = (currentStepOf snapshot - 1).toNat :=
    toUsize_eq _ (by omega) (by omega)
  constructor
  · have hcond : (snapshot.get "steps").asArray = none ∨
        ∃ steps, (snapshot.get "steps").asArray = some steps ∧
          steps.get? (toUsize (currentStepOf snapshot - 1)) = none := by
      rcases hsteps with hnone | ⟨l, hsome, hlen⟩
      · exact Or.inl hnone
      · refine Or.inr ⟨l, hsome, ?_⟩
        rw [husize]
        exact List.get?_eq_none.mpr (by omega)
    rw [poll_and_notify_ok,
      progressPart_advance_missing _ _ ⟨hgt, hle⟩ hcond,
      terminalPart_running snapshot hrun.1 hrun.2.1 hrun.2.2]
    rfl
  · rw [poll_and_notify_ok,
      progressPart_no_change _ _ (by intro hcontra; exact absurd hcontra.1 (by simp)),
      terminalPart_running snapshot hrun.1 hrun.2.1 hrun.2.2]
    rfl

/-- Claim C9 witness: the theorem applied to a concrete snapshot whose
steps array has only one entry while currentStep is 2. -/
theorem claim9_advance_without_message_witness :
    poll_and_notify (JobPoller.new "j1" "c1" "telegram" "u")
      (.ok (mkSnap 2 3 "running" [mkStepEntry "discover" "completed"])) =
      .ok ({ JobPoller.new "j1" "c1" "telegram" "u" with last_step := 2 }, [], false) ∧
    poll_and_notify { JobPoller.new "j1" "c1" "telegram" "u" with last_step := 2 }
      (.ok (mkSnap 2 3 "running" [mkStepEntry "discover" "completed"])) =
      .ok ({ JobPoller.new "j1" "c1" "telegram" "u" with last_step := 2 }, [], false) := by
  have h := claim9_advance_without_message (JobPoller.new "j1" "c1" "telegram" "u")
    (mkSnap 2 3 "running" [mkStepEntry "discover" "completed"])
    (by decide) (by decide) (by decide)
    (Or.inr ⟨[mkStepEntry "discover" "completed"], rfl, by decide⟩)
    ⟨by decide, by decide, by decide⟩
  exact h

/-! Claim C8. -/

/-- Claim C8: a RETRY or ALTERNATIVE decision whose modified_step is
absent or not a JSON object succeeds with the remaining steps unchanged
and no replacement step, the same outcome a SKIP decision produces. -/
theorem claim8_retry_without_modified_step (failed : JobStep) (remaining : List JobStep)
    (freshId errText content : String) (body recovery : Json)
    (hc : extractContent body = some content)
    (hp : from_str (stripFence content) = some recovery)
    (hdec : (recovery.get "decision").asStr = some "RETRY" ∨
            (recovery.get "decision").asStr = some "ALTERNATIVE")
    (hmod : (recovery.get "modified_step").asObject = none) :
    generate_recovery_plan failed errText remaining freshId (.ok body) = .ok remaining ∧
    (∀ body2 content2 rec2, extractContent body2 = some content2 →
      from_str (stripFence content2) = some rec2 →
      (rec2.get "decision").asStr = some "SKIP" →
      generate_recovery_plan failed errText remaining freshId (.ok body2) =
        generate_recovery_plan failed errText remaining freshId (.ok body)) := by
  have hmain : generate_recovery_plan failed errText remaining freshId (.ok body) =
      .ok remaining := by
    rcases hdec with h | h <;>
      simp [generate_recovery_plan, hc, hp, h, retryBranch, hmod]
  refine ⟨hmain, ?_⟩
  intro body2 content2 rec2 h1 h2 h3
  rw [hmain]
  simp [generate_recovery_plan, h1, h2, h3]

/-- Claim C8 witness: the theorem applied to a concrete RETRY reply with
no modified_step field. -/
theorem claim8_retry_without_modified_step_witness :
    generate_recovery_plan exFailedStep "boom" [exRemainingStep] "step-new"
      (.ok (mkBody "\x7b\"decision\":\"RETRY\",\"reason\":\"try again\"\x7d")) =
      .ok [exRemainingStep] ∧
    generate_recovery_plan exFailedStep "boom" [exRemainingStep] "step-new"
      (.ok (mkBody "\x7b\"decision\":\"SKIP\"\x7d")) =
      generate_recovery_plan exFailedStep "boom" [exRemainingStep] "step-new"
        (.ok (mkBody "\x7b\"decision\":\"RETRY\",\"reason\":\"try again\"\x7d")) := by
  have h := claim8_retry_without_modified_step exFailedStep [exRemainingStep] "step-new"
    "boom" "\x7b\"decision\":\"RETRY\",\"reason\":\"try again\"\x7d"
    (mkBody "\x7b\"decision\":\"RETRY\",\"reason\":\"try again\"\x7d")
    (Json.obj [("decision", Json.str "RETRY"), ("reason", Json.str "try again")])
    rfl rfl (Or.inl rfl) rfl
  exact ⟨h.1, h.2 (mkBody "\x7b\"decision\":\"SKIP\"\x7d") "\x7b\"decision\":\"SKIP\"\x7d"
    (Json.obj [("decision", Json.str "SKIP")]) rfl rfl rfl⟩

/-! Claim C10. -/

/-- The businesses block under truncation: header, exactly the first 10
entries, and the more-suffix with the leftover count. -/
theorem businessesSection_of_long (results : Json) (businesses : List Json)
    (hb : (results.get "businesses").asArray = some businesses)
    (hlen : 10 < businesses.length) :
    businessesSection results =
      "🏢 **Found " ++ toString businesses.length ++ " Businesses:**\n\n" ++
      String.join ((businesses.take 10).enum.map businessEntry) ++
      ("...and " ++ toString (businesses.length - 10) ++ " more\n\n") := by
  have hne : ¬(businesses.isEmpty = true) := by
    cases businesses with
    | nil => simp at hlen
    | cons a rest => simp
  simp only [businessesSection, hb]
  rw [if_neg hne, if_pos hlen]

/-- The contacts block under truncation, with the same convention. -/
theorem contactsSection_of_long (results : Json) (contacts : List Json)
    (hc : (results.get "contacts").asArray = some contacts)
    (hlen : 10 < contacts.length) :
    contactsSection results =
      "📇 **Found " ++ toString contacts.length ++ " Contacts:**\n\n" ++
      String.join ((contacts.take 10).enum.map contactEntry) ++
      ("...and " ++ toString (contacts.length - 10) ++ " more\n\n") := by
  have hne : ¬(contacts.isEmpty = true) := by
    cases contacts with
    | nil => simp at hlen
    | cons a rest => simp
  simp only [contactsSection, hc]
  rw [if_neg hne, if_pos hlen]

/-- Claim C10: with more than 10 businesses the output renders the header,
exactly the first 10 business entries and a more-suffix with the leftover
count; the contacts list truncates the same way; and with 15 businesses
and an empty contacts block the whole output ends with the line stating 5
more. -/
theorem claim10_truncation (results : Json) (businesses : List Json) (jobPart : String)
    (hb : (results.get "businesses").asArray = some businesses)
    (hlen : 10 < businesses.length)
    (hj : formatJobInfo results = some jobPart) :
    format_job_results results = some ("📊 **Job Results**\n\n" ++ jobPart ++
      ("🏢 **Found " ++ toString businesses.length ++ " Businesses:**\n\n" ++
        String.join ((businesses.take 10).enum.map businessEntry) ++
        ("...and " ++ toString (businesses.length - 10) ++ " more\n\n")) ++
      contactsSection results) ∧
    ((businesses.take 10).enum.map businessEntry).length = 10 ∧
    (∀ contacts, (results.get "contacts").asArray = some contacts →
      10 < contacts.length →
      contactsSection results =
        "📇 **Found " ++ toString contacts.length ++ " Contacts:**\n\n" ++
        String.join ((contacts.take 10).enum.map contactEntry) ++
        ("...and " ++ toString (contacts.length - 10) ++ " more\n\n")) ∧
    (businesses.length = 15 → contactsSection results = "" →
      ∀ out, format_job_results results = some out →
        ("...and 5 more\n\n").data <:+ out.data) := by
  have hbiz := businessesSection_of_long results businesses hb hlen
  have hmain : format_job_results results = some ("📊 **Job Results**\n\n" ++ jobPart ++
      ("🏢 **Found " ++ toString businesses.length ++ " Businesses:**\n\n" ++
        String.join ((businesses.take 10).enum.map businessEntry) ++
        ("...and " ++ toString (businesses.length - 10) ++ " more\n\n")) ++
      contactsSection results) := by
    simp only [format_job_results, hj, hbiz]
  refine ⟨hmain, ?_, ?_, ?_⟩
  · simp [List.enum_length, List.length_take]
    omega
  · intro contacts hcc hcl
    exact contactsSection_of_long results contacts hcc hcl
  · intro h15 hcempty out hout
    rw [hmain] at hout
    have hout2 : out = "📊 **Job Results**\n\n" ++ jobPart ++
        ("🏢 **Found " ++ toString businesses.length ++ " Businesses:**\n\n" ++
          String.join ((businesses.take 10).enum.map businessEntry) ++
          ("...and " ++ toString (businesses.length - 10) ++ " more\n\n")) ++
        contactsSection results := (Option.some.inj hout).symm
    rw [hout2, hcempty, h15]
    have h5 : (toString (15 - 10 : Nat)).data = ['5'] := by decide
    refine ⟨("📊 **Job Results**\n\n" ++ jobPart ++
      ("🏢 **Found " ++ toString (15 : Nat) ++ " Businesses:**\n\n" ++
        String.join ((businesses.take 10).enum.map businessEntry))).data, ?_⟩
    simp [String.data_append, h5, List.append_assoc]

/-- Claim C10 witness: the truncation theorem applied to a concrete
results document holding 15 businesses and no contacts. -/
theorem claim10_truncation_witness :
    ("...and 5 more\n\n").data <:+
      ((format_job_results (Json.obj [("businesses",
        Json.arr (List.replicate 15 (Json.obj [("name", Json.str "Acme")])))])).getD
          "").data := by
  have h := claim10_truncation
    (Json.obj [("businesses",
      Json.arr (List.replicate 15 (Json.obj [("name", Json.str "Acme")])))])
    (List.replicate 15 (Json.obj [("name", Json.str "Acme")])) ""
    rfl (by simp) rfl
  have h2 := h.2.2.2 (by simp) rfl _ h.1
  rw [h.1]
  simpa using h2

end Oneclaw
